import Mathlib

/-!
Verification of the nmcli wrapper module (src/nmcli/__init__.py).

The development shallowly embeds the module: the field table and its
recursive prefix resolution (`_build_fields`), the terse-output parsers
(single-line and multiline branches of `_nmcli`), argument sanitization and
validation (`sanitize_arg`, `verify_arg`, `verify_args`), command-string
serialization and dispatch (`run_action`), and the query pipeline
(`_nmcli`) with the external process abstracted as an explicit invoker
function from an argument vector to (exit code, stdout, stderr).

Python values that flow through the module are modelled by small inductive
types: `Arg` for the argument values None / bool / int / str, `Allowed` for
a possible-arguments entry (None or a list), `PyVal` for the values compared
by the multiline-key membership test, and `PyErr` for the raised exceptions
(Exception / TypeError / ValueError / IndexError). Fallible Python code
returns `Except PyErr`.
-/

/-- A parsed output row: a Python dict from field name to string value,
modelled as an insertion-ordered association list with overwriting insert. -/
abbrev Record := List (String × String)

/-- The external process boundary: argv to (returncode, stdout, stderr). -/
abbrev Invoker := List String → Int × String × String

/-- Python exceptions raised by the module. -/
inductive PyErr where
  | exc (msg : String)
  | typeError (msg : String)
  | valueError (msg : String)
  | indexError (msg : String)
deriving DecidableEq

instance {e a : Type} [DecidableEq e] [DecidableEq a] :
    DecidableEq (Except e a) := fun x y =>
  match x, y with
  | .ok u, .ok v =>
      if h : u = v then .isTrue (by rw [h])
      else .isFalse (by intro hc; injection hc; contradiction)
  | .error u, .error v =>
      if h : u = v then .isTrue (by rw [h])
      else .isFalse (by intro hc; injection hc; contradiction)
  | .ok _, .error _ => .isFalse (by intro hc; exact Except.noConfusion hc)
  | .error _, .ok _ => .isFalse (by intro hc; exact Except.noConfusion hc)

/-- A Python value as passed to an action: None, bool, int or str. -/
inductive Arg where
  | none
  | bool (b : Bool)
  | int (n : Int)
  | str (s : String)
deriving DecidableEq

instance : BEq Arg := ⟨fun a b => decide (a = b)⟩

/-- A possible-arguments entry of the registry: None or a list of values. -/
inductive Allowed where
  | none
  | list (xs : List Arg)
deriving DecidableEq

/-- The two kinds of Python value compared by
`if fields in NMCLI_MULTILINE_KEYS`: the looked-up field list and the
key strings stored in the tuple. Python `in` compares with `==`, and a
list never equals a str, which this `BEq` reproduces. -/
inductive PyVal where
  | str (s : String)
  | list (xs : List String)
deriving DecidableEq

def PyVal.beq : PyVal → PyVal → Bool
  | .str a, .str b => a == b
  | .list a, .list b => a == b
  | _, _ => false

instance : BEq PyVal := ⟨PyVal.beq⟩

/-- The field list registered for key "nm". -/
def nm_fields : List String :=
  ["RUNNING", "STATE", "WIFI-HARDWARE", "WIFI", "WWAN-HARDWARE", "WWAN"]

/-- The field list registered for key "dev". -/
def dev_fields : List String := ["DEVICE", "TYPE", "STATE"]

/-- The field list registered for key "con". -/
def con_fields : List String := ["NAME", "UUID", "TYPE", "TIMESTAMP-REAL"]

/-- The field list registered for key "con status". -/
def con_status_fields : List String :=
  ["NAME", "UUID", "DEVICES", "DEFAULT", "VPN", "MASTER-PATH"]

/-- The field list registered for key "con list id" (18 entries). -/
def con_list_id_fields : List String :=
  ["connection", "802-3-ethernet", "802-1x", "802-11-wireless",
   "802-11-wireless-security", "ipv4", "ipv6", "serial", "ppp", "pppoe",
   "gsm", "cdma", "bluetooth", "802-11-olpc-mesh", "vpn", "infiniband",
   "bond", "vlan"]

/-- NMCLI_FIELDS: the field table mapping a space-joined command path to
its ordered field list. -/
def NMCLI_FIELDS : List (String × List String) :=
  [("nm", nm_fields),
   ("dev", dev_fields),
   ("con", con_fields),
   ("con status", con_status_fields),
   ("con list id", con_list_id_fields)]

/-- NMCLI_MULTILINE_KEYS, a tuple holding the single key string. -/
def NMCLI_MULTILINE_KEYS : List PyVal := [PyVal.str "con list id"]

/-- Dict lookup in NMCLI_FIELDS (keys are unique). -/
def lookup_fields (key : String) : Option (List String) :=
  (NMCLI_FIELDS.find? (fun p => p.1 == key)).map (fun p => p.2)

/-- Python " ".join. -/
def py_join (sep : String) (xs : List String) : String :=
  String.intercalate sep xs

/-- The function `_build_fields` from `_nmcli`: look up the space-joined path; on a hit,
set multiline if the looked-up value is in NMCLI_MULTILINE_KEYS (the Python
code tests `fields`, the list, against the tuple of key strings); on a miss,
pop the last element and recurse, raising IndexError when popping an empty
list. -/
def build_fields (ns : List String) (fields : Option (List String))
    (multiline : Bool) : Except PyErr (List String × List String × Bool) :=
  match lookup_fields (py_join " " ns) with
  | some fs =>
      .ok (ns, fs,
        if NMCLI_MULTILINE_KEYS.contains (PyVal.list fs) then true else multiline)
  | none =>
      if h : ns.isEmpty then .error (.indexError "pop from empty list")
      else build_fields ns.dropLast fields multiline
termination_by ns.length
decreasing_by
  simp only [List.isEmpty_iff] at h
  have h1 : ns.length ≠ 0 := fun h0 => h (List.length_eq_zero.mp h0)
  simp [List.length_dropLast]
  omega

/-- Python str.lower, character-wise (structurally recursive so that the
kernel can evaluate it). -/
def py_lower (s : String) : String := String.mk (s.data.map Char.toLower)

/-- Python str.split(sep) on a character list: no collapsing of empty
pieces, and the empty input yields one empty piece. -/
def py_split_chars (sep : Char) : List Char → List (List Char)
  | [] => [[]]
  | c :: cs =>
      let r := py_split_chars sep cs
      if c = sep then [] :: r
      else
        match r with
        | [] => [[c]]
        | x :: xs => (c :: x) :: xs

/-- Python str.split(sep) for a one-character separator (structurally
recursive so that the kernel can evaluate it; agrees with str.split:
"".split gives [""], separators are not collapsed). -/
def py_split (s : String) (sep : Char) : List String :=
  (py_split_chars sep s.data).map String.mk

/-- Python s.split(sep, 1): at most one split. -/
def py_split_once (sep : Char) (s : String) : List String :=
  match py_split s sep with
  | [] => [s]
  | [x] => [x]
  | x :: rest => [x, String.intercalate (String.mk [sep]) rest]

/-- Insert into a Python dict: overwrite in place if the key is present,
else append at the end (insertion order preserved). -/
def dict_insert (row : Record) (k v : String) : Record :=
  if row.any (fun p => p.1 == k) then
    row.map (fun p => if p.1 == k then (k, v) else p)
  else row ++ [(k, v)]

/-- dict(pairs): left-to-right insertion with overwriting. -/
def py_dict (pairs : List (String × String)) : Record :=
  pairs.foldl (fun d p => dict_insert d p.1 p.2) []

/-- Unpacking-error message for `field, prop = multikey.split(".")`. -/
def unpack_msg (got : Nat) : String :=
  if got < 2 then "need more than " ++ toString got ++ " value to unpack"
  else "too many values to unpack"

/-- The multiline loop of `_nmcli`: for each line, split on the first colon;
if that yields two parts, unpack the part before the colon on "." into
(field, prop) - raising ValueError unless it has exactly two parts - and
assign row[prop] = value; otherwise skip the line. -/
def parse_multiline_lines : List String → Record → Except PyErr Record
  | [], row => .ok row
  | line :: rest, row =>
      match py_split_once ':' line with
      | [multikey, value] =>
          match py_split multikey '.' with
          | [_f, prop] => parse_multiline_lines rest (dict_insert row prop value)
          | parts => .error (.valueError (unpack_msg parts.length))
      | _ => parse_multiline_lines rest row

/-- The single-line loop of `_nmcli`: split each line on every colon and
keep exactly the lines whose column count equals the field count, zipping
fields with columns into a dict. -/
def parse_single_lines (fields : List String) : List String → List Record
  | [] => []
  | line :: rest =>
      let values := py_split line ':'
      if values.length == fields.length then
        py_dict (fields.zip values) :: parse_single_lines fields rest
      else parse_single_lines fields rest

/-- The parse stage of `_nmcli` on retcode 0: stdout.split("\n") fed to the
multiline accumulator (emitted as a one-element list) or the single-line
loop. -/
def parse_stdout (fields : List String) (multiline : Bool) (stdout : String) :
    Except PyErr (List Record) :=
  if multiline then do
    let row ← parse_multiline_lines (py_split stdout '\n') []
    .ok [row]
  else .ok (parse_single_lines fields (py_split stdout '\n'))

/-- Models shlex.split for command strings without quoting or escape
characters (the only command strings this module builds): whitespace
tokenization dropping empty tokens. -/
def shlex_split (s : String) : List String :=
  (py_split s ' ').filter (fun t => !(t == ""))

/-- The ProcessFailure message:
"nmcli return {0} code. STDERR=\x27{1}\x27".format(retcode, stderr). -/
def process_msg (retcode : Int) (stderr : String) : String :=
  "nmcli return " ++ toString retcode ++ " code. STDERR=\x27" ++ stderr ++ "\x27"

/-- The query `_nmcli`: resolve fields from [obj, command] extended with the explicit
fields, build argv, invoke, and on exit code 0 parse stdout, otherwise
raise with the exit code and stderr embedded. -/
def _nmcli (invoker : Invoker) (obj : String) (command : String)
    (fields : Option (List String)) (multiline : Bool) :
    Except PyErr (List Record) := do
  let ns : List String := [obj, command] ++ fields.getD []
  let r ← build_fields ns fields multiline
  let fs := r.2.1
  let ml := r.2.2
  let args := ["nmcli", "--terse", "--fields", String.intercalate "," fs, obj]
      ++ shlex_split command
  let (retcode, stdout, stderr) := invoker args
  if retcode == 0 then parse_stdout fs ml stdout
  else .error (.exc (process_msg retcode stderr))

/-- The function `sanitize_arg`: bool to "true"/"false", int to its decimal string,
str lower-cased, None passed through. The bool test comes first in the
source, so Python bools (a subclass of int) take the bool branch. -/
def sanitize_arg : Arg → Arg
  | .bool b => .str (if b then "true" else "false")
  | .int n => .str (toString n)
  | .str s => .str (py_lower s)
  | .none => .none

/-- The function `sanitize_args` applied to a possible-arguments entry: map over a list,
otherwise sanitize the single value (None stays None). -/
def sanitize_args : Allowed → Allowed
  | .list xs => .list (xs.map sanitize_arg)
  | .none => .none

/-- Python str() of an argument value. -/
def py_str_arg : Arg → String
  | .none => "None"
  | .bool b => if b then "True" else "False"
  | .int n => toString n
  | .str s => s

/-- Python repr() of an argument value (used by str() of a list). -/
def py_repr_arg : Arg → String
  | .str s => "\x27" ++ s ++ "\x27"
  | a => py_str_arg a

/-- Python str() of a possible-arguments entry. -/
def py_str_allowed : Allowed → String
  | .none => "None"
  | .list xs => "[" ++ String.intercalate ", " (xs.map py_repr_arg) ++ "]"

/-- The message of the Exception raised by `verify_arg`:
"%s is not a valid argument for \x27%s\x27. Parameters: %s" with the
sanitized argument, the command name and the original possible arguments. -/
def invalid_arg_msg (arg : Arg) (command : String) (possibleargs : Allowed) :
    String :=
  py_str_arg arg ++ " is not a valid argument for \x27" ++ command ++
    "\x27. Parameters: " ++ py_str_allowed possibleargs

/-- The function `verify_arg`: sanitize the argument, then test `arg not in usableargs`.
When usableargs is None the membership test itself raises TypeError; when it
is a list, a missing member raises the invalid-argument Exception; otherwise
the sanitized argument is returned. -/
def verify_arg (usableargs : Allowed) (command : String)
    (possibleargs : Allowed) (arg : Arg) : Except PyErr Arg :=
  let arg := sanitize_arg arg
  match usableargs with
  | .none => .error (.typeError "argument of type \x27NoneType\x27 is not iterable")
  | .list xs =>
      if xs.contains arg then .ok arg
      else .error (.exc (invalid_arg_msg arg command possibleargs))

/-- The function `verify_args`: verify each argument left to right, first failure wins. -/
def verify_args (usableargs : Allowed) (command : String)
    (possibleargs : Allowed) : List Arg → Except PyErr (List Arg)
  | [] => .ok []
  | a :: rest => do
      let s ← verify_arg usableargs command possibleargs a
      let srest ← verify_args usableargs command possibleargs rest
      .ok (s :: srest)

/-- The positional-arguments parameter of an action call: absent (None),
a bare value, or a list of values. -/
inductive PosArgs where
  | none
  | single (a : Arg)
  | list (xs : List Arg)
deriving DecidableEq

/-- The candidate token list of `run_action`: None becomes [], a bare value
becomes a singleton, and when kwargs is non-empty the keyword names are
appended. -/
def candidate_tokens (args : PosArgs) (kwargs : List (String × Arg)) :
    List Arg :=
  let args0 : List Arg :=
    match args with
    | .none => []
    | .single a => [a]
    | .list xs => xs
  if kwargs.isEmpty then args0
  else args0 ++ kwargs.map (fun p => Arg.str p.1)

/-- kwargs[name] (only evaluated when the membership test succeeded). -/
def kwargs_value (kwargs : List (String × Arg)) (name : String) : Arg :=
  (((kwargs.find? (fun p => p.1 == name)).map (fun p => p.2)).getD .none)

/-- The serialization loop of `run_action`: a verified token that is a
kwargs key is rendered as "name value" with the sanitized value, any other
token is kept bare. -/
def build_opts (kwargs : List (String × Arg)) : List Arg → List Arg
  | [] => []
  | arg :: rest =>
      (match arg with
       | .str s =>
           if kwargs.any (fun p => p.1 == s) then
             Arg.str (s ++ " " ++ py_str_arg (sanitize_arg (kwargs_value kwargs s)))
           else arg
       | a => a) :: build_opts kwargs rest

/-- Python " ".join over the opts: every element must be a str, a None
element raises TypeError. -/
def py_join_args (sep : String) (xs : List Arg) : Except PyErr String := do
  let ss ← xs.mapM (fun a =>
    match a with
    | Arg.str s => Except.ok s
    | _ => Except.error (PyErr.typeError "sequence item: expected string"))
  .ok (String.intercalate sep ss)

/-- The dispatcher `run_action` for one registered (cmdname, command, possibleargs): build
the candidate token list, validate it against the sanitized possible
arguments, serialize the command string, and delegate to `_nmcli`. -/
def run_action (invoker : Invoker) (cmdname : String) (command : String)
    (possibleargs : Allowed) (args : PosArgs)
    (kwargs : List (String × Arg)) : Except PyErr (List Record) := do
  let usableargs := sanitize_args possibleargs
  let vargs ← verify_args usableargs command possibleargs
      (candidate_tokens args kwargs)
  let cmd ←
    if vargs.isEmpty then Except.ok command
    else do
      let joined ← py_join_args " " (build_opts kwargs vargs)
      Except.ok (command ++ " " ++ joined)
  _nmcli invoker cmdname cmd Option.none false

/-- The nm registry. -/
def nm_commands : List (String × Allowed) :=
  [("status", .none),
   ("enable", .list [.bool true, .bool false]),
   ("sleep", .list [.bool true, .bool false]),
   ("wifi", .list [.str "on", .str "off"]),
   ("wwan", .list [.str "on", .str "off"])]

/-- The con registry. -/
def con_commands : List (String × Allowed) :=
  [("list", .list [.none, .str "id", .str "uuid"]),
   ("status", .list [.none, .str "id", .str "uuid", .str "path"]),
   ("up", .list [.str "id", .str "uuid", .str "iface", .str "ap"]),
   ("down", .list [.str "id", .str "uuid"]),
   ("delete", .list [.str "id", .str "uuid"])]

/-- The dev registry. -/
def dev_commands : List (String × Allowed) :=
  [("status", .none),
   ("list", .list [.none, .str "iface"]),
   ("disconnect", .list [.str "iface"]),
   ("wifi", .list [.str "list"])]

/-- The possible arguments registered for a command of a registry. -/
def action_args (commands : List (String × Allowed)) (command : String) :
    Allowed :=
  (((commands.find? (fun p => p.1 == command)).map (fun p => p.2)).getD .none)

/-- A field list (a Python list) is never equal to any entry of
NMCLI_MULTILINE_KEYS (key strings), so the membership test in
`build_fields` is always false. -/
lemma contains_mlk_false (fs : List String) :
    NMCLI_MULTILINE_KEYS.contains (PyVal.list fs) = false := rfl

/-- Resolution at a registered key returns that key unchanged together with
its table fields and the incoming multiline flag. -/
lemma build_fields_hit (ns fs : List String)
    (h : lookup_fields (py_join " " ns) = some fs)
    (f : Option (List String)) (m : Bool) :
    build_fields ns f m = .ok (ns, fs, m) := by
  rw [build_fields.eq_def, h]
  simp [contains_mlk_false]

/-- Resolution at an unregistered non-empty path recurses on the path
without its last element. -/
lemma build_fields_miss (ns : List String)
    (h : lookup_fields (py_join " " ns) = Option.none)
    (hne : ns ≠ []) (f : Option (List String)) (m : Bool) :
    build_fields ns f m = build_fields ns.dropLast f m := by
  conv_lhs => rw [build_fields.eq_def]
  rw [h]
  simp [hne]

/-- The empty path is unregistered. -/
lemma lookup_fields_nil :
    lookup_fields (py_join " " ([] : List String)) = Option.none := by decide

/-- Whenever resolution succeeds, the returned multiline flag is exactly the
flag that was passed in: the table never sets it. -/
lemma build_fields_ok_multiline :
    ∀ (ns : List String) (f : Option (List String)) (m : Bool)
      (r : List String × List String × Bool),
      build_fields ns f m = .ok r → r.2.2 = m := by
  intro ns
  induction ns using List.reverseRecOn with
  | nil =>
      intro f m r h
      rw [build_fields.eq_def, lookup_fields_nil] at h
      simp at h
  | append_singleton l a ih =>
      intro f m r h
      cases hq : lookup_fields (py_join " " (l ++ [a])) with
      | some fs =>
          rw [build_fields_hit _ _ hq] at h
          cases h
          rfl
      | none =>
          rw [build_fields_miss _ hq (by simp), List.dropLast_concat] at h
          exact ih f m r h

/-- Whenever resolution succeeds, the returned fields are the table entry of
the returned path: the explicit fields argument is never returned. -/
lemma build_fields_ok_table :
    ∀ (ns : List String) (f : Option (List String)) (m : Bool)
      (r : List String × List String × Bool),
      build_fields ns f m = .ok r →
      lookup_fields (py_join " " r.1) = some r.2.1 := by
  intro ns
  induction ns using List.reverseRecOn with
  | nil =>
      intro f m r h
      rw [build_fields.eq_def, lookup_fields_nil] at h
      simp at h
  | append_singleton l a ih =>
      intro f m r h
      cases hq : lookup_fields (py_join " " (l ++ [a])) with
      | some fs =>
          rw [build_fields_hit _ _ hq] at h
          cases h
          exact hq
      | none =>
          rw [build_fields_miss _ hq (by simp), List.dropLast_concat] at h
          exact ih f m r h

/-- Prefix-fallback characterization: if the element-wise path of length i
is registered and every strictly longer element-wise path up to the full
path is not, resolution returns that nearest registered ancestor with its
table fields and the incoming multiline flag. -/
lemma build_fields_ancestor :
    ∀ (ns : List String) (f : Option (List String)) (m : Bool) (i : Nat)
      (fsi : List String),
      i ≤ ns.length →
      lookup_fields (py_join " " (ns.take i)) = some fsi →
      (∀ j, i < j → j ≤ ns.length →
        lookup_fields (py_join " " (ns.take j)) = Option.none) →
      build_fields ns f m = .ok (ns.take i, fsi, m) := by
  intro ns
  induction ns using List.reverseRecOn with
  | nil =>
      intro f m i fsi hi hreg _habove
      have hz : i = 0 := Nat.le_zero.mp hi
      subst hz
      rw [List.take_nil, lookup_fields_nil] at hreg
      exact Option.noConfusion hreg
  | append_singleton l a ih =>
      intro f m i fsi hi hreg habove
      have hlen : (l ++ [a]).length = l.length + 1 := by simp
      by_cases htop : i = l.length + 1
      · subst htop
        have htake : (l ++ [a]).take (l.length + 1) = l ++ [a] := by
          rw [← hlen, List.take_length]
        rw [htake] at hreg ⊢
        exact build_fields_hit _ _ hreg f m
      · have hle : i ≤ l.length := by omega
        have hmiss : lookup_fields (py_join " " (l ++ [a])) = Option.none := by
          have := habove (l.length + 1) (by omega) (by omega)
          rw [← hlen, List.take_length] at this
          exact this
        rw [build_fields_miss _ hmiss (by simp), List.dropLast_concat]
        have htk : (l ++ [a]).take i = l.take i :=
          List.take_append_of_le_length hle
        rw [htk] at hreg ⊢
        refine ih f m i fsi hle hreg ?_
        intro j hji hjl
        have := habove j hji (by omega)
        rwa [List.take_append_of_le_length hjl] at this

/-- Unfolding of the query pipeline once field resolution is known. -/
lemma _nmcli_unfold (invoker : Invoker) (obj command : String)
    (f : Option (List String)) (m : Bool) (ns' fs : List String) (ml : Bool)
    (hbf : build_fields ([obj, command] ++ f.getD []) f m = .ok (ns', fs, ml)) :
    _nmcli invoker obj command f m =
      (if (invoker (["nmcli", "--terse", "--fields",
            String.intercalate "," fs, obj] ++ shlex_split command)).1 == 0
       then parse_stdout fs ml
         (invoker (["nmcli", "--terse", "--fields",
            String.intercalate "," fs, obj] ++ shlex_split command)).2.1
       else .error (.exc (process_msg
         (invoker (["nmcli", "--terse", "--fields",
            String.intercalate "," fs, obj] ++ shlex_split command)).1
         (invoker (["nmcli", "--terse", "--fields",
            String.intercalate "," fs, obj] ++ shlex_split command)).2.2))) := by
  simp only [_nmcli, hbf]
  rfl

/-- An invoker that reports success with empty output. -/
def ok_empty_invoker : Invoker := fun _ => (0, "", "")

/-- An invoker that reports success with one four-column terse row. -/
def ok_row_invoker : Invoker := fun _ => (0, "a:b:c:d", "")

/-- An invoker that reports failure with exit code 2 and stderr "boom". -/
def fail_invoker : Invoker := fun _ => (2, "", "boom")

/-- C1. The claim says resolving the registered path "con list id" returns
multiline = true, the flag being determined by membership of the key in
NMCLI_MULTILINE_KEYS. The code instead compares the looked-up FIELD LIST
(not the joined key) with the entries of NMCLI_MULTILINE_KEYS, and a Python
list never equals a key string, so the comparison never fires: resolving
"con list id" with the default flag returns its full FieldSet (which has
18 entries, not 17 as claimed) with multiline = false, and in general the
returned flag is always exactly the caller-supplied flag, for every path. -/
theorem claim_C1_con_list_id_multiline_dropped :
    (build_fields ["con", "list", "id"] Option.none false
      = .ok (["con", "list", "id"], con_list_id_fields, false)) ∧
    con_list_id_fields.length = 18 ∧
    (∀ (ns : List String) (f : Option (List String)) (m : Bool)
       (r : List String × List String × Bool),
       build_fields ns f m = .ok r → r.2.2 = m) := by
  refine ⟨?_, by decide, build_fields_ok_multiline⟩
  exact build_fields_hit _ con_list_id_fields (by decide) _ _

/-- Witness for C1: the universally quantified conjunct applied at the
registered path "nm" with incoming flag true. -/
theorem claim_C1_witness :
    ((["nm"], nm_fields, true) : List String × List String × Bool).2.2 = true :=
  claim_C1_con_list_id_multiline_dropped.2.2 ["nm"] Option.none true
    (["nm"], nm_fields, true)
    (build_fields_hit ["nm"] nm_fields (by decide) Option.none true)

/-- C2 counterexample. The example of the claim says that a query on object
"con" with command tokens "status id x" resolves to the "con status"
FieldSet. Through the query entry point the whole command string is a
single path element, so resolution pops it in one step and lands on the
coarser "con" FieldSet, which differs from the "con status" FieldSet. -/
theorem claim_C2_counterexample :
    build_fields ["con", "status id x"] Option.none false
      = .ok (["con"], con_fields, false) ∧
    con_fields ≠ con_status_fields := by
  refine ⟨?_, by decide⟩
  rw [build_fields_miss _ (by decide) (by simp) _ _]
  exact build_fields_hit _ con_fields (by decide) _ _

/-- C2 as amended: resolution drops one trailing path ELEMENT at a time and
returns the table entry of the nearest registered element-wise ancestor
together with the unchanged multiline flag; when the sub-arguments are
separate path elements, ["con", "status", "id", "x"] does resolve to the
"con status" FieldSet. -/
theorem claim_C2_nearest_ancestor_elementwise :
    (∀ (ns : List String) (f : Option (List String)) (m : Bool) (i : Nat)
       (fsi : List String),
       i ≤ ns.length →
       lookup_fields (py_join " " (ns.take i)) = some fsi →
       (∀ j, i < j → j ≤ ns.length →
         lookup_fields (py_join " " (ns.take j)) = Option.none) →
       build_fields ns f m = .ok (ns.take i, fsi, m)) ∧
    build_fields ["con", "status", "id", "x"] Option.none false
      = .ok (["con", "status"], con_status_fields, false) := by
  refine ⟨build_fields_ancestor, ?_⟩
  rw [build_fields_miss _ (by decide) (by simp) _ _]
  rw [show (["con", "status", "id", "x"].dropLast) = ["con", "status", "id"]
      from rfl]
  rw [build_fields_miss _ (by decide) (by simp) _ _]
  exact build_fields_hit _ con_status_fields (by decide) _ _

/-- Witness for C2: the nearest-ancestor conjunct applied at the concrete
path ["con", "status", "zzz"] with ancestor length 2. -/
theorem claim_C2_witness :
    build_fields ["con", "status", "zzz"] Option.none false
      = .ok (["con", "status", "zzz"].take 2, con_status_fields, false) :=
  claim_C2_nearest_ancestor_elementwise.1 ["con", "status", "zzz"]
    Option.none false 2 con_status_fields (by decide) (by decide)
    (by
      intro j h2 h3
      have h4 : j ≤ 3 := by simpa using h3
      have hj : j = 3 := by omega
      subst hj
      decide)

/-- C7. Single-line parsing keeps exactly the lines whose colon-split
column count equals the field count, zipping fields with columns, and in
particular fields [A, B, C] on "1:2:3\n4:5:6\n" give the two claimed
records while the wrong-column-count line "1:2" gives none. -/
theorem claim_C7_single_line_parse :
    (∀ (fields : List String) (lines : List String),
       parse_single_lines fields lines =
         (lines.filter
            (fun l => (py_split l (':')).length == fields.length)).map
           (fun l => py_dict (fields.zip (py_split l (':'))))) ∧
    parse_stdout ["A", "B", "C"] false "1:2:3\n4:5:6\n"
      = .ok [[("A", "1"), ("B", "2"), ("C", "3")],
             [("A", "4"), ("B", "5"), ("C", "6")]] ∧
    parse_stdout ["A", "B", "C"] false "1:2" = .ok [] := by
  refine ⟨?_, by decide, by decide⟩
  intro fields lines
  induction lines with
  | nil => rfl
  | cons line rest ih =>
      cases hb : (py_split line (':')).length == fields.length with
      | true => simp [parse_single_lines, List.filter, hb, ih]
      | false => simp [parse_single_lines, List.filter, hb, ih]

/-- Under the hypothesis that every colon-line of the input has a multikey
that dot-splits into exactly two parts, the multiline loop cannot raise. -/
lemma parse_multiline_ok (ls : List String) :
    (∀ line ∈ ls, (py_split_once (':') line).length = 2 →
      (py_split ((py_split_once (':') line).headD "") ('.')).length = 2) →
    ∀ row : Record, ∃ row2 : Record, parse_multiline_lines ls row = .ok row2 := by
  induction ls with
  | nil => exact fun _ row => ⟨row, rfl⟩
  | cons line rest ih =>
      intro h row
      have hline := h line (by simp)
      have hrest : ∀ l ∈ rest, (py_split_once (':') l).length = 2 →
          (py_split ((py_split_once (':') l).headD "") ('.')).length = 2 :=
        fun l hl => h l (by simp [hl])
      rcases hs : py_split_once (':') line with _ | ⟨mk, _ | ⟨v, _ | _⟩⟩
      · simpa [parse_multiline_lines, hs] using ih hrest row
      · simpa [parse_multiline_lines, hs] using ih hrest row
      · rw [hs] at hline
        have hdot : (py_split mk ('.')).length = 2 := by simpa using hline
        rcases List.length_eq_two.mp hdot with ⟨f, p, hfp⟩
        have := ih hrest (dict_insert row p v)
        simpa [parse_multiline_lines, hs, hfp] using this
      · rw [hs] at hline
        simp at hline
        simpa [parse_multiline_lines, hs] using ih hrest row

/-- C3 counterexample. The claim says a line whose part before the first
colon lacks a "." is skipped and the record from the remaining well-formed
lines is returned. On "connection.id:home\nGENERAL:x\n" the code instead
raises ValueError at the GENERAL line and returns nothing. -/
theorem claim_C3_counterexample :
    parse_stdout [] true "connection.id:home\nGENERAL:x\n"
      = .error (.valueError "need more than 1 value to unpack") ∧
    parse_stdout [] true "connection.id:home\nGENERAL:x\n"
      ≠ .ok [[("id", "home")]] := ⟨by decide, by decide⟩

/-- C3 as amended: a line with no colon (first-colon split is not a pair)
is skipped without error, but a colon-line whose multikey does not dot-split
into exactly two parts aborts the parse with ValueError. -/
theorem claim_C3_skip_and_raise :
    (∀ (line : String) (rest : List String) (row : Record),
       (py_split_once (':') line).length ≠ 2 →
       parse_multiline_lines (line :: rest) row
         = parse_multiline_lines rest row) ∧
    (∀ (line : String) (rest : List String) (row : Record) (mk v : String),
       py_split_once (':') line = [mk, v] →
       (py_split mk ('.')).length ≠ 2 →
       parse_multiline_lines (line :: rest) row
         = .error (.valueError (unpack_msg (py_split mk ('.')).length))) := by
  constructor
  · intro line rest row h
    rcases hs : py_split_once (':') line with _ | ⟨a, _ | ⟨b, l⟩⟩
    · simp [parse_multiline_lines, hs]
    · simp [parse_multiline_lines, hs]
    · rw [hs] at h
      cases l with
      | nil => simp at h
      | cons c cs => simp [parse_multiline_lines, hs]
  · intro line rest row mk v hs hdot
    rcases hd : py_split mk ('.') with _ | ⟨f, _ | ⟨p, l⟩⟩
    · simp [parse_multiline_lines, hs, hd]
    · simp [parse_multiline_lines, hs, hd, unpack_msg]
    · rw [hd] at hdot
      cases l with
      | nil => simp at hdot
      | cons c cs => simp [parse_multiline_lines, hs, hd]

/-- Witness for C3: the skip conjunct at a colon-free line and the raise
conjunct at "GENERAL:x". -/
theorem claim_C3_witness :
    parse_multiline_lines ["nocolon"] [] = parse_multiline_lines [] [] ∧
    parse_multiline_lines ["GENERAL:x"] []
      = .error (.valueError (unpack_msg (py_split "GENERAL" ('.')).length)) :=
  ⟨claim_C3_skip_and_raise.1 "nocolon" [] [] (by decide),
   claim_C3_skip_and_raise.2 "GENERAL:x" [] [] "GENERAL" "x"
     (by decide) (by decide)⟩

/-- C8 counterexample. The claim says every stdout yields exactly one
record; on "x:y" (key without a dot) the parse raises instead and returns
no record at all. -/
theorem claim_C8_counterexample :
    parse_stdout [] true "x:y"
      = .error (.valueError "need more than 1 value to unpack") ∧
    ∀ rows : List Record, parse_stdout [] true "x:y" ≠ .ok rows := by
  refine ⟨by decide, ?_⟩
  intro rows hc
  have h0 : parse_stdout [] true "x:y"
      = .error (.valueError "need more than 1 value to unpack") := by decide
  rw [h0] at hc
  exact Except.noConfusion hc

/-- C8 as amended: for every stdout all of whose colon-lines have a
two-part dotted multikey, multiline parsing returns exactly one record (a
one-element sequence), built by first-colon and dot splitting with
last-write-wins overwriting; the claimed example parses as claimed, and a
property-name collision across sections keeps the later value. -/
theorem claim_C8_multiline_single_record :
    (∀ (fields : List String) (stdout : String),
       (∀ line ∈ py_split stdout ('\n'),
         (py_split_once (':') line).length = 2 →
         (py_split ((py_split_once (':') line).headD "") ('.')).length = 2) →
       ∃ row : Record, parse_stdout fields true stdout = .ok [row]) ∧
    parse_stdout [] true "connection.id:home\nipv4.addr:192.168.1.2\n"
      = .ok [[("id", "home"), ("addr", "192.168.1.2")]] ∧
    parse_stdout [] true "a.x:1\nb.x:2\n" = .ok [[("x", "2")]] := by
  refine ⟨?_, by decide, by decide⟩
  intro fields stdout h
  rcases parse_multiline_ok (py_split stdout ('\n')) h [] with ⟨row2, h2⟩
  refine ⟨row2, ?_⟩
  simp only [parse_stdout, if_true, h2]
  rfl

/-- Witness for C8: the universally quantified conjunct applied at the
claimed example input. -/
theorem claim_C8_witness :
    ∃ row : Record,
      parse_stdout [] true "connection.id:home\nipv4.addr:192.168.1.2\n"
        = .ok [row] :=
  claim_C8_multiline_single_record.1 [] "connection.id:home\nipv4.addr:192.168.1.2\n"
    (by decide)

/-- C9. Once field resolution has succeeded, the query raises exactly the
ProcessFailure message embedding the exit code and the captured stderr when
the invoker reports a non-zero exit code (and then no record sequence is
returned), and returns exactly the parsed record sequence when the exit
code is zero: there is no partial-success outcome. -/
theorem claim_C9_exit_code_handling :
    ∀ (invoker : Invoker) (obj command : String) (f : Option (List String))
      (m : Bool) (ns' fs : List String) (ml : Bool),
      build_fields ([obj, command] ++ f.getD []) f m = .ok (ns', fs, ml) →
      ∀ (retcode : Int) (stdout stderr : String),
        invoker (["nmcli", "--terse", "--fields",
            String.intercalate "," fs, obj] ++ shlex_split command)
          = (retcode, stdout, stderr) →
        (retcode ≠ 0 →
          _nmcli invoker obj command f m
            = .error (.exc ("nmcli return " ++ toString retcode ++
                " code. STDERR=\x27" ++ stderr ++ "\x27")) ∧
          ∀ rows : List Record, _nmcli invoker obj command f m ≠ .ok rows) ∧
        (retcode = 0 →
          _nmcli invoker obj command f m = parse_stdout fs ml stdout) := by
  intro invoker obj command f m ns' fs ml hbf retcode stdout stderr hinv
  rw [_nmcli_unfold invoker obj command f m ns' fs ml hbf, hinv]
  constructor
  · intro hne
    have hb : (retcode == 0) = false := by simpa using hne
    constructor
    · simp [hb, process_msg]
    · intro rows hc
      rw [if_neg (by simp [hb])] at hc
      exact Except.noConfusion hc
  · intro h0
    subst h0
    simp

/-- Witness for C9: with an invoker exiting 2 with stderr "boom", the query
on nm status raises the exact ProcessFailure message, and with an invoker
exiting 0 it returns the parsed records. -/
theorem claim_C9_witness :
    _nmcli fail_invoker "nm" "status" Option.none false
      = .error (.exc "nmcli return 2 code. STDERR=\x27boom\x27") :=
  (((claim_C9_exit_code_handling fail_invoker "nm" "status" Option.none false
      ["nm"] nm_fields false
      (by
        rw [build_fields_miss _ (by decide) (by simp) _ _]
        exact build_fields_hit _ nm_fields (by decide) _ _)
      2 "" "boom" rfl).1 (by decide)).1)

/-- C10 counterexample. The claim says two query calls differing only in
explicitFields resolve the same FieldSet and produce the same result. With
the same invoker (exit 0, stdout "a:b:c:d"), a query on con list with no
explicit fields parses one four-column row against the "con" FieldSet,
while the same query with explicitFields = ["id"] resolves the 18-column
"con list id" FieldSet and parses nothing: the results differ. -/
theorem claim_C10_counterexample :
    _nmcli ok_row_invoker "con" "list" Option.none false
      ≠ _nmcli ok_row_invoker "con" "list" (some ["id"]) false := by
  have h1 : _nmcli ok_row_invoker "con" "list" Option.none false
      = .ok [[("NAME", "a"), ("UUID", "b"), ("TYPE", "c"),
              ("TIMESTAMP-REAL", "d")]] := by
    rw [_nmcli_unfold _ _ _ _ _ ["con"] con_fields false
      (by
        rw [build_fields_miss _ (by decide) (by simp) _ _]
        exact build_fields_hit _ con_fields (by decide) _ _)]
    rfl
  have h2 : _nmcli ok_row_invoker "con" "list" (some ["id"]) false
      = .ok [] := by
    rw [_nmcli_unfold _ _ _ _ _ (["con", "list"] ++ (some ["id"]).getD [])
      con_list_id_fields false
      (build_fields_hit _ con_list_id_fields (by decide) _ _)]
    rfl
  rw [h1, h2]
  decide

/-- C10 as amended: the explicit fields argument is never returned as the
resolved FieldSet (whenever resolution succeeds, the returned fields are
the table entry of the returned path), but it is not inert: it is appended
to the resolution path, so the two resolution paths of the counterexample
resolve different FieldSets. -/
theorem claim_C10_explicit_fields_effect :
    (∀ (ns : List String) (f : Option (List String)) (m : Bool)
       (r : List String × List String × Bool),
       build_fields ns f m = .ok r →
       lookup_fields (py_join " " r.1) = some r.2.1) ∧
    build_fields (["con", "list"] ++ (some ["id"]).getD []) (some ["id"]) false
      ≠ build_fields
          (["con", "list"] ++ (Option.none : Option (List String)).getD [])
          Option.none false := by
  refine ⟨build_fields_ok_table, ?_⟩
  have h1 : build_fields (["con", "list"] ++ (some ["id"]).getD [])
      (some ["id"]) false
      = .ok (["con", "list"] ++ (some ["id"]).getD [], con_list_id_fields, false) :=
    build_fields_hit _ con_list_id_fields (by decide) _ _
  have h2 : build_fields
      (["con", "list"] ++ (Option.none : Option (List String)).getD [])
      Option.none false = .ok (["con"], con_fields, false) := by
    rw [build_fields_miss _ (by decide) (by simp) _ _]
    exact build_fields_hit _ con_fields (by decide) _ _
  rw [h1, h2]
  decide

/-- Witness for C10: the universally quantified conjunct applied at a path
resolved with an explicit fields argument present: the returned FieldSet is
the table entry, not the explicit one. -/
theorem claim_C10_witness :
    lookup_fields (py_join " " ["con"]) = some con_fields :=
  claim_C10_explicit_fields_effect.1 ["con", "x"] (some ["zzz"]) false
    (["con"], con_fields, false)
    (by
      rw [build_fields_miss _ (by decide) (by simp) _ _]
      exact build_fields_hit _ con_fields (by decide) _ _)

/-- Validation short-circuits: if every token before `tok` verifies and
`tok` fails, the whole token list fails with exactly the error of `tok`. -/
lemma verify_args_error (usable : Allowed) (command : String) (pa : Allowed)
    (pre : List Arg) (tok : Arg) (rest : List Arg) (e : PyErr)
    (hpre : ∀ t ∈ pre, ∃ r, verify_arg usable command pa t = .ok r)
    (htok : verify_arg usable command pa tok = .error e) :
    verify_args usable command pa (pre ++ tok :: rest) = .error e := by
  induction pre with
  | nil =>
      rw [List.nil_append]
      simp only [verify_args, htok]
      rfl
  | cons a as ih =>
      rcases hpre a (by simp) with ⟨r, hr⟩
      have ih2 := ih (fun t ht => hpre t (by simp [ht]))
      rw [List.cons_append]
      simp only [verify_args, hr, ih2]
      rfl

/-- C4. Whenever the normalized form of some candidate token is missing from the
normalized allowed list, the action call returns - for EVERY invoker, hence
before and without any external invocation - exactly the
invalid-argument error naming the (normalized) offending token, the
command, and the full registered allowed set; in particular
nm.enable("asdasd") and con.list(food=8302) do so. -/
theorem claim_C4_validation_rejects_before_invocation :
    (∀ (invoker : Invoker) (cmdname command : String) (xs : List Arg)
       (args : PosArgs) (kwargs : List (String × Arg))
       (pre : List Arg) (tok : Arg) (rest : List Arg),
       candidate_tokens args kwargs = pre ++ tok :: rest →
       (∀ t ∈ pre, (xs.map sanitize_arg).contains (sanitize_arg t) = true) →
       (xs.map sanitize_arg).contains (sanitize_arg tok) = false →
       run_action invoker cmdname command (.list xs) args kwargs
         = .error (.exc (invalid_arg_msg (sanitize_arg tok) command
             (.list xs)))) ∧
    (∀ invoker : Invoker,
       run_action invoker "nm" "enable" (action_args nm_commands "enable")
         (.single (.str "asdasd")) []
         = .error (.exc ("asdasd is not a valid argument for \x27enable\x27." ++
             " Parameters: [True, False]"))) ∧
    (∀ invoker : Invoker,
       run_action invoker "con" "list" (action_args con_commands "list")
         PosArgs.none [("food", .int 8302)]
         = .error (.exc ("food is not a valid argument for \x27list\x27." ++
             " Parameters: [None, \x27id\x27, \x27uuid\x27]"))) := by
  refine ⟨?_, fun invoker => rfl, fun invoker => rfl⟩
  intro invoker cmdname command xs args kwargs pre tok rest hcand hpre htok
  have htokerr : verify_arg (.list (xs.map sanitize_arg)) command (.list xs)
      tok = .error (.exc (invalid_arg_msg (sanitize_arg tok) command
        (.list xs))) := by
    simp only [verify_arg, htok]
    rw [if_neg Bool.false_ne_true]
  have hpre2 : ∀ t ∈ pre, ∃ r,
      verify_arg (.list (xs.map sanitize_arg)) command (.list xs) t
        = .ok r := by
    intro t ht
    refine ⟨sanitize_arg t, ?_⟩
    simp only [verify_arg, hpre t ht]
    rw [if_pos trivial]
  have hva := verify_args_error (.list (xs.map sanitize_arg)) command
    (.list xs) pre tok rest _ hpre2 htokerr
  have hus : sanitize_args (.list xs) = .list (xs.map sanitize_arg) := rfl
  simp only [run_action, hus, hcand, hva]
  rfl

/-- Witness for C4: the universally quantified conjunct applied at the
concrete nm.enable("asdasd") call with one concrete invoker. -/
theorem claim_C4_witness :
    run_action ok_empty_invoker "nm" "enable" (.list [.bool true, .bool false])
      (.single (.str "asdasd")) []
      = .error (.exc (invalid_arg_msg (sanitize_arg (.str "asdasd")) "enable"
          (.list [.bool true, .bool false]))) :=
  claim_C4_validation_rejects_before_invocation.1 ok_empty_invoker "nm"
    "enable" [.bool true, .bool false] (.single (.str "asdasd")) [] []
    (.str "asdasd") [] rfl (by simp) (by decide)

/-- C5 counterexample. The claim says a non-null positional token given to
a null-allowed command (nm.status) raises the argument-validation error
naming the token, the command and the allowed set. The membership test
`arg not in None` instead raises a TypeError, which is not that validation
error. -/
theorem claim_C5_counterexample :
    run_action ok_empty_invoker "nm" "status" Allowed.none
      (.single (.str "foo")) []
      = .error (.typeError "argument of type \x27NoneType\x27 is not iterable") ∧
    run_action ok_empty_invoker "nm" "status" Allowed.none
      (.single (.str "foo")) []
      ≠ .error (.exc (invalid_arg_msg (sanitize_arg (.str "foo")) "status"
          Allowed.none)) := ⟨rfl, by decide⟩

/-- C5 as amended: for a command registered with the null allowed set, a
call supplying no tokens passes validation and proceeds to the query with
the bare command, while a call supplying ANY positional token (null
included) raises a TypeError from testing membership in None, not the
argument-validation error. -/
theorem claim_C5_null_allowed_behavior :
    (∀ (invoker : Invoker) (cmdname command : String),
       run_action invoker cmdname command Allowed.none PosArgs.none []
         = _nmcli invoker cmdname command Option.none false) ∧
    (∀ (invoker : Invoker) (cmdname command : String) (a : Arg),
       run_action invoker cmdname command Allowed.none (.single a) []
         = .error (.typeError
             "argument of type \x27NoneType\x27 is not iterable")) ∧
    (∀ (invoker : Invoker) (cmdname command : String) (a : Arg)
       (xs : List Arg),
       run_action invoker cmdname command Allowed.none (.list (a :: xs)) []
         = .error (.typeError
             "argument of type \x27NoneType\x27 is not iterable")) :=
  ⟨fun _ _ _ => rfl, fun _ _ _ _ => rfl, fun _ _ _ _ _ => rfl⟩

/-- C6 counterexample. The claim says keyword argument names are NOT
normalized. They are: the name "ID" is lower-cased to "id" during
validation - so con.list(ID="x") passes validation and succeeds (under the
claim the un-normalized token "ID" is not in the normalized allowed set
{None, "id", "uuid"} and the call would have to raise). -/
theorem claim_C6_counterexample :
    run_action ok_empty_invoker "con" "list" (action_args con_commands "list")
      PosArgs.none [("ID", .str "x")] = .ok [] ∧
    verify_args (sanitize_args (action_args con_commands "list")) "list"
      (action_args con_commands "list") [Arg.str "ID"]
      = .ok [Arg.str "id"] := by
  refine ⟨?_, by decide⟩
  have hcmd : run_action ok_empty_invoker "con" "list"
      (action_args con_commands "list") PosArgs.none [("ID", .str "x")]
      = _nmcli ok_empty_invoker "con" "list id" Option.none false := rfl
  have h1 : _nmcli ok_empty_invoker "con" "list id" Option.none false
      = .ok [] := by
    rw [_nmcli_unfold _ _ _ _ _
      (["con", "list id"] ++ (Option.none : Option (List String)).getD [])
      con_list_id_fields false
      (build_fields_hit _ con_list_id_fields (by decide) _ _)]
    rfl
  exact hcmd.trans h1

/-- C6 as amended: normalization maps booleans to "true"/"false", integers
to their decimal string, strings to lower case and passes None through;
validation depends only on the normalized token (so it applies uniformly to
positional tokens AND to keyword argument names, which are appended to the
candidate token list whenever kwargs is non-empty); the allowed entries are
normalized via sanitize_args; and serialization sanitizes the keyword
argument VALUE looked up for a token that is a kwargs key. -/
theorem claim_C6_normalization :
    (∀ b : Bool, sanitize_arg (.bool b)
       = .str (if b then "true" else "false")) ∧
    (∀ n : Int, sanitize_arg (.int n) = .str (toString n)) ∧
    (∀ s : String, sanitize_arg (.str s) = .str (py_lower s)) ∧
    sanitize_arg .none = .none ∧
    (∀ (u : Allowed) (c : String) (pa : Allowed) (t1 t2 : Arg),
       sanitize_arg t1 = sanitize_arg t2 →
       verify_arg u c pa t1 = verify_arg u c pa t2) ∧
    (∀ (args : PosArgs) (kwargs : List (String × Arg)),
       kwargs ≠ [] →
       candidate_tokens args kwargs
         = candidate_tokens args [] ++ kwargs.map (fun p => Arg.str p.1)) ∧
    (∀ (kwargs : List (String × Arg)) (s : String),
       kwargs.any (fun p => p.1 == s) = true →
       build_opts kwargs [Arg.str s]
         = [Arg.str (s ++ " " ++
             py_str_arg (sanitize_arg (kwargs_value kwargs s)))]) := by
  refine ⟨fun b => rfl, fun n => rfl, fun s => rfl, rfl, ?_, ?_, ?_⟩
  · intro u c pa t1 t2 h
    simp only [verify_arg, h]
  · intro args kwargs hk
    have hk2 : kwargs.isEmpty = false := by
      cases kwargs with
      | nil => exact absurd rfl hk
      | cons p ps => rfl
    simp [candidate_tokens, hk2]
  · intro kwargs s h
    simp [build_opts, h]

/-- Witness for C6: validation invariance applied at two spellings of the
same normalized token, the kwargs-names conjunct at con.list(food=8302),
and the serialization conjunct at con.up(id="ETH0"). -/
theorem claim_C6_witness :
    verify_arg (.list [.str "id"]) "list" (.list [.str "ID"]) (.str "ID")
      = verify_arg (.list [.str "id"]) "list" (.list [.str "ID"]) (.str "Id") ∧
    candidate_tokens PosArgs.none [("food", Arg.int 8302)]
      = candidate_tokens PosArgs.none []
          ++ [("food", Arg.int 8302)].map (fun p => Arg.str p.1) ∧
    build_opts [("id", Arg.str "ETH0")] [Arg.str "id"]
      = [Arg.str ("id" ++ " " ++ py_str_arg (sanitize_arg
          (kwargs_value [("id", Arg.str "ETH0")] "id")))] :=
  ⟨claim_C6_normalization.2.2.2.2.1 (.list [.str "id"]) "list"
     (.list [.str "ID"]) (.str "ID") (.str "Id") (by decide),
   claim_C6_normalization.2.2.2.2.2.1 PosArgs.none [("food", Arg.int 8302)]
     (by decide),
   claim_C6_normalization.2.2.2.2.2.2 [("id", Arg.str "ETH0")] "id"
     (by decide)⟩
